import Mathlib

/-!
Shallow embedding of the TTS plugin orchestrator
(`tts-controller/app/server_manager.py` and the plugin health endpoints
under `plugins/`).  Python dicts become association lists, the Docker
daemon becomes an explicit `DockerState` threaded through every
operation, and exceptions become `Except`/`Bool` results exactly where
the source catches or raises them.  Failure modes of the external
Docker client (a `containers.run` that raises, a `container.stop` that
raises, a `containers.get` that raises something other than `NotFound`)
are supplied by a `DockerOracle` parameter, so theorems quantify over
every behaviour of the external runtime.
-/

namespace TTSC

/-- Execution unit record of the external container runtime.  The `cid`
field is the runtime-assigned unique identifier, used to observe that a
container was destroyed and re-created. -/
structure Container where
  name : String
  image : String
  status : String
  cid : Nat
deriving DecidableEq, Repr

/-- State of the external container runtime: the containers that
currently exist, the networks that exist, and the next fresh container
id. -/
structure DockerState where
  containers : List Container
  networks : List String
  nextId : Nat
deriving DecidableEq, Repr

/-- Outcome of a `containers.run` call.  Real Docker can fail before the
container object is created (for example, an unknown image) or after it
is created but before it starts (an OCI runtime start failure), in which
case the created container is left behind in `created` state. -/
inductive RunOutcome where
  | ok
  | failAfterCreate
  | failBeforeCreate
deriving DecidableEq, Repr

/-- Behaviour of the external Docker client, indexed by container name:
whether `containers.run` succeeds, whether `container.stop` raises, and
whether `containers.get` raises a non-`NotFound` error. -/
structure DockerOracle where
  runOutcome : String → RunOutcome
  stopRaises : String → Bool
  getRaises : String → Bool

/-- Look up a container by name: `docker_client.containers.get`, with
`none` standing for the `NotFound` exception. -/
def findContainer (d : DockerState) (cname : String) : Option Container :=
  d.containers.find? (fun c => c.name = cname)

/-- Remove every container with the given name from the runtime state
(the effect of `container.remove`, and a no-op when absent). -/
def removeContainer (d : DockerState) (cname : String) : DockerState :=
  { d with containers := d.containers.filter (fun c => c.name ≠ cname) }

/-- Create a container with a fresh id: the effect of
`docker_client.containers.run` on the runtime state. -/
def createContainer (d : DockerState) (image cname st : String) : DockerState :=
  { d with
    containers := Container.mk cname image st d.nextId :: d.containers
    nextId := d.nextId + 1 }

/-- In-memory record the manager keeps per plugin
(`PluginInfo` dataclass, `server_manager.py` lines 17-26).  Environment,
volumes and port bindings are opaque configuration carried from the
manifest. -/
structure PluginInfo where
  name : String
  plugin_dir : String
  image : String
  status : String
  container_name : String
  environment : List (String × String)
  volumes : List (String × String)
  ports : List (String × Nat)
deriving DecidableEq, Repr

/-- Orchestrator state: the registry mapping plugin key (directory
name) to `PluginInfo` (`self.plugins`). -/
structure Manager where
  plugins : List (String × PluginInfo)
deriving DecidableEq, Repr

/-- Set or overwrite the value at a key in an association list:
the effect of `self.plugins[key] = plugin`. -/
def setKey (l : List (String × PluginInfo)) (k : String) (v : PluginInfo) :
    List (String × PluginInfo) :=
  match l with
  | [] => [(k, v)]
  | (k0, v0) :: rest => if k0 = k then (k, v) :: rest else (k0, v0) :: setKey rest k v

/-- Update the cached status of a registered plugin (mutation of
`plugin.status`, which aliases the registry entry in Python). -/
def setStatus (m : Manager) (k : String) (st : String) : Manager :=
  match m.plugins.lookup k with
  | none => m
  | some p => ⟨setKey m.plugins k { p with status := st }⟩

/-! Registry scan (`scan_plugins`, lines 71-112). -/

/-- One of Docker's possible container status strings can only be
compared against text, so plugin manifests are modelled as parsed
configuration.  `PluginConfig` is what `yaml.safe_load(config.yaml)`
yields for a well-formed manifest. -/
structure PluginConfig where
  image : String
  environment : List (String × String)
  volumes : List (String × String)
  ports : List (String × Nat)
deriving DecidableEq, Repr

/-- Result of trying to read the manifest of one candidate directory:
no `config.yaml` at all, a `config.yaml` that raises during load, or a
parsed configuration. -/
inductive Manifest where
  | missing
  | malformed
  | ok (cfg : PluginConfig)
deriving DecidableEq, Repr

/-- One entry of the plugin root directory as seen by `iterdir`. -/
structure DirEntry where
  ename : String
  isDir : Bool
  manifest : Manifest
deriving DecidableEq, Repr

/-- Decide whether `needle` occurs as a contiguous run inside `hay`. -/
def containsSub (needle : List Char) : List Char → Bool
  | [] => needle.isEmpty
  | c :: rest => needle.isPrefixOf (c :: rest) || containsSub needle rest

/-- ASCII lower-casing of one character, as Python's `str.lower` acts
on the ASCII directory names in play. -/
def lowerChar (c : Char) : Char :=
  if 'A' ≤ c ∧ c ≤ 'Z' then Char.ofNat (c.toNat + 32) else c

/-- Lower-case a string character-wise. -/
def strLower (s : String) : String :=
  ⟨s.data.map lowerChar⟩

/-- Remove every (left-to-right, non-overlapping) occurrence of `pat`,
the semantics of Python's `str.replace(pat, "")`; the fuel argument
only bounds the recursion and starts at the list's length. -/
def removeSubAux (pat : List Char) : Nat → List Char → List Char
  | 0, l => l
  | _ + 1, [] => []
  | fuel + 1, c :: rest =>
      if pat.isPrefixOf (c :: rest) then
        removeSubAux pat fuel ((c :: rest).drop pat.length)
      else c :: removeSubAux pat fuel rest

/-- Python's `s.replace(pat, "")`. -/
def strRemove (s pat : String) : String :=
  ⟨removeSubAux pat.data s.data.length s.data⟩

/-- The source's GPU-variant test: `"gpu" in plugin_dir.name.lower()`
(line 90). -/
def isGpuDir (dirName : String) : Bool :=
  containsSub "gpu".data (strLower dirName).data

/-- Logical plugin name (line 91):
`plugin_dir.name.replace("-gpu", "")` when the directory is
GPU-marked, else the directory name itself. -/
def logicalName (dirName : String) : String :=
  if isGpuDir dirName then strRemove dirName "-gpu" else dirName

/-- Device class derived from the registry key by the source's own
GPU test (line 90); the scan stores no separate field, the key itself
carries the tag. -/
def deviceClass (dirName : String) : String :=
  if isGpuDir dirName then "gpu" else "cpu"

/-- Registry record built from one good manifest
(lines 89-104 of `scan_plugins`). -/
def mkPlugin (dirName : String) (cfg : PluginConfig) : PluginInfo :=
  { name := logicalName dirName
    plugin_dir := dirName
    image := cfg.image
    status := "stopped"
    container_name := "tts-" ++ dirName
    environment := cfg.environment
    volumes := cfg.volumes
    ports := cfg.ports }

/-- Processing of one directory entry by the scan loop: non-directories
are skipped, a missing manifest is logged-and-skipped, a malformed
manifest is logged-and-skipped, and a good manifest registers the
plugin under its full directory name. -/
def scanStep (m : Manager) (e : DirEntry) : Manager :=
  if !e.isDir then m
  else
    match e.manifest with
    | .missing => m
    | .malformed => m
    | .ok cfg => ⟨setKey m.plugins e.ename (mkPlugin e.ename cfg)⟩

/-- The whole scan (`scan_plugins`): fold the per-entry step over the
directory listing. -/
def scanPlugins (m : Manager) (entries : List DirEntry) : Manager :=
  entries.foldl scanStep m

/-! Lifecycle operations. -/

/-- Ensure the shared `tts-network` exists (`_ensure_network`,
lines 114-119): a create-if-missing on the runtime's network list. -/
def ensureNetwork (d : DockerState) : DockerState :=
  if "tts-network" ∈ d.networks then d
  else { d with networks := "tts-network" :: d.networks }

/-- The `start_plugin` method (lines 121-157).  Returns the `bool` the
source returns together with the updated manager and runtime state.
Unknown name: `False`.  Then the network is ensured, a stale same-named
container is removed (`NotFound` passed over), and `containers.run` is
attempted; any exception on the way yields `False` with no rollback of
runtime effects already performed. -/
def startPlugin (o : DockerOracle) (m : Manager) (d : DockerState)
    (pname : String) : Bool × Manager × DockerState :=
  match m.plugins.lookup pname with
  | none => (false, m, d)
  | some plugin =>
    let d1 := ensureNetwork d
    if o.getRaises plugin.container_name then
      (false, m, d1)
    else
      let d2 := removeContainer d1 plugin.container_name
      match o.runOutcome plugin.container_name with
      | .failBeforeCreate => (false, m, d2)
      | .failAfterCreate =>
          (false, m, createContainer d2 plugin.image plugin.container_name "created")
      | .ok =>
          (true, setStatus m pname "running",
            createContainer d2 plugin.image plugin.container_name "running")

/-- The `stop_plugin` method (lines 159-180).  Unknown name: `False`.
A `NotFound` from `containers.get` is absorbed: the status is still set
to `stopped` and the call succeeds.  A non-`NotFound` error from the
get, or an error from `stop`/`remove`, falls into the outer `except`
and yields `False` without touching the cached status. -/
def stopPlugin (o : DockerOracle) (m : Manager) (d : DockerState)
    (pname : String) : Bool × Manager × DockerState :=
  match m.plugins.lookup pname with
  | none => (false, m, d)
  | some plugin =>
    if o.getRaises plugin.container_name then
      (false, m, d)
    else
      match findContainer d plugin.container_name with
      | none => (true, setStatus m pname "stopped", d)
      | some _ =>
          if o.stopRaises plugin.container_name then
            (false, m, d)
          else
            (true, setStatus m pname "stopped",
              removeContainer d plugin.container_name)

/-- Python exception classes the manager raises: `ValueError` for an
unknown plugin name, `RuntimeError` for a start/stop failure.  The HTTP
facade maps `ValueError` to 404 and everything else to 500, so the two
constructors being distinct is exactly the caller-visible distinction. -/
inductive PyErr where
  | valueError (msg : String)
  | runtimeError (msg : String)
deriving DecidableEq, Repr

/-- Result dictionary returned by the `load/unload/restart/status`
operations. -/
structure ResultDict where
  server_type : String
  status : Option String
  plugin_info : Option PluginInfo
deriving DecidableEq, Repr

/-- The `restart_plugin` method (lines 182-201): `ValueError` on an
unknown name, `RuntimeError` if the stop phase or the start phase
fails, otherwise a `restarted` result. -/
def restartPlugin (o : DockerOracle) (m : Manager) (d : DockerState)
    (pname : String) : Except PyErr ResultDict × Manager × DockerState :=
  match m.plugins.lookup pname with
  | none => (.error (.valueError ("Plugin " ++ pname ++ " not found")), m, d)
  | some _ =>
    match stopPlugin o m d pname with
    | (false, m1, d1) =>
        (.error (.runtimeError ("Failed to stop plugin: " ++ pname)), m1, d1)
    | (true, m1, d1) =>
      match startPlugin o m1 d1 pname with
      | (false, m2, d2) =>
          (.error (.runtimeError ("Failed to start plugin: " ++ pname)), m2, d2)
      | (true, m2, d2) =>
          (.ok ⟨pname, some "restarted", m2.plugins.lookup pname⟩, m2, d2)

/-- The `get_plugin_status` method (lines 203-219): `none` for an
unknown name; otherwise the container's live status string, `stopped`
on `NotFound` (cached status updated in both cases), and `unknown`
without a cache update when the get raises some other error. -/
def getPluginStatus (o : DockerOracle) (m : Manager) (d : DockerState)
    (pname : String) : Option String × Manager :=
  match m.plugins.lookup pname with
  | none => (none, m)
  | some plugin =>
    if o.getRaises plugin.container_name then
      (some "unknown", m)
    else
      match findContainer d plugin.container_name with
      | some c => (some c.status, setStatus m pname c.status)
      | none => (some "stopped", setStatus m pname "stopped")

/-- The `load_server` method (lines 236-251): `ValueError` on an
unknown name, `RuntimeError` when `start_plugin` fails, otherwise a
`loaded` result carrying the registry entry. -/
def loadServer (o : DockerOracle) (m : Manager) (d : DockerState)
    (pname : String) : Except PyErr ResultDict × Manager × DockerState :=
  match m.plugins.lookup pname with
  | none => (.error (.valueError ("Unknown server type: " ++ pname)), m, d)
  | some _ =>
    match startPlugin o m d pname with
    | (false, m1, d1) =>
        (.error (.runtimeError ("Failed to start plugin: " ++ pname)), m1, d1)
    | (true, m1, d1) =>
        (.ok ⟨pname, some "loaded", m1.plugins.lookup pname⟩, m1, d1)

/-- The `unload_server` method (lines 253-267): `ValueError` on an
unknown name; a stop failure is reported as an `error`-status result
(not an exception), success as `unloaded`. -/
def unloadServer (o : DockerOracle) (m : Manager) (d : DockerState)
    (pname : String) : Except PyErr ResultDict × Manager × DockerState :=
  match m.plugins.lookup pname with
  | none => (.error (.valueError ("Unknown server type: " ++ pname)), m, d)
  | some _ =>
    match stopPlugin o m d pname with
    | (false, m1, d1) => (.ok ⟨pname, some "error", none⟩, m1, d1)
    | (true, m1, d1) => (.ok ⟨pname, some "unloaded", none⟩, m1, d1)

/-- The `get_server_status` method (lines 269-280): `ValueError` on an
unknown name, otherwise the re-derived status wrapped in a result
dictionary. -/
def getServerStatus (o : DockerOracle) (m : Manager) (d : DockerState)
    (pname : String) : Except PyErr ResultDict × Manager :=
  match m.plugins.lookup pname with
  | none => (.error (.valueError ("Unknown server type: " ++ pname)), m)
  | some _ =>
    let r := getPluginStatus o m d pname
    (.ok ⟨pname, r.1, none⟩, r.2)

/-! Health endpoints of the managed plugins
(`plugins/bark-gpu/forward/app/main.py` and
`plugins/bark-gpu/tts/app/main.py`). -/

/-- What the forwarding unit's probe of the inference unit's health
surface can observe: an HTTP response with a status code, or a raised
connection/client error with its message. -/
inductive UpstreamAnswer where
  | response (code : Nat)
  | raised (msg : String)
deriving DecidableEq, Repr

/-- Normalized probe result: a status string plus an optional
diagnostic detail. -/
structure HealthResult where
  status : String
  detail : Option String
deriving DecidableEq, Repr

/-- Forward service `health_check` (`forward/app/main.py` lines 50-59):
200 from upstream is `healthy`; any other code is `unhealthy` with a
fixed diagnostic; any exception is caught and reported as `unhealthy`
with the exception text.  The function is total: no input makes it
raise. -/
def forwardHealthCheck (u : UpstreamAnswer) : HealthResult :=
  match u with
  | .response code =>
      if code = 200 then ⟨"healthy", none⟩
      else ⟨"unhealthy", some "TTS service not responding"⟩
  | .raised e => ⟨"unhealthy", some e⟩

/-- Accelerator identity and memory figures reported by the GPU
driver (`torch.cuda` in the source); opaque external data. -/
structure GpuFacts where
  gpu_name : String
  gpu_memory_total : Nat
  gpu_memory_allocated : Nat
  cuda_version : String
deriving DecidableEq, Repr

/-- Response of the inference unit's `health_check`
(`tts/app/main.py` lines 66-82): always `healthy`, carrying the device
string, plus the accelerator fields exactly when the device is
`cuda`. -/
structure DeviceHealth where
  status : String
  device : String
  gpu : Option GpuFacts
deriving DecidableEq, Repr

/-- Inference service `health_check`: the GPU block is added iff
`DEVICE == "cuda"`; on a CPU device the accelerator keys are simply
absent from the response. -/
def ttsHealthCheck (device : String) (facts : GpuFacts) : DeviceHealth :=
  if device = "cuda" then ⟨"healthy", device, some facts⟩
  else ⟨"healthy", device, none⟩

/-! Port allocator.  No port allocator exists under `src/`; the spec
describes one (sections 3 and 4.2) implemented in manager iterations
outside the provided sources, so it is modelled from the spec here. -/

/-- Modelled from the spec: the `PortAllocation` state of section 3 —
"a monotonically increasing cursor plus a mapping of plugin name → set
of ports currently held by it" (the Port Allocator component itself is
absent from the provided sources). -/
structure PortState where
  cursor : Nat
  owned : List (String × List Nat)
deriving DecidableEq, Repr

/-- All ports currently held by any owner. -/
def heldPorts (s : PortState) : List Nat :=
  (s.owned.map Prod.snd).flatten

/-- Ports held by one owner. -/
def portsOf (s : PortState) (owner : String) : List Nat :=
  (s.owned.lookup owner).getD []

/-- Record a port against an owner, creating the owner's entry on
first acquisition. -/
def addPort (l : List (String × List Nat)) (owner : String) (p : Nat) :
    List (String × List Nat) :=
  match l with
  | [] => [(owner, [p])]
  | (k, ps) :: rest =>
      if k = owner then (k, p :: ps) :: rest else (k, ps) :: addPort rest owner p

/-- Modelled from the spec: linear probing upward — the first port at
or above `start` not held by any current owner, searched with enough
fuel to clear every held port. -/
def probeFree (held : List Nat) (start : Nat) : Nat → Nat
  | 0 => start
  | fuel + 1 => if start ∈ held then probeFree held (start + 1) fuel else start

/-- Modelled from the spec: `acquire() -> port_number` of section 4.2 —
"linear probing upward from a configured start value", a monotonic
cursor that never rewinds, and the acquired port recorded against its
owner. -/
def acquirePort (s : PortState) (owner : String) : Nat × PortState :=
  let held := heldPorts s
  let p := probeFree held s.cursor (held.length + 1)
  (p, { cursor := p + 1, owned := addPort s.owned owner p })

/-- Drop every entry of the given owner from the ownership map. -/
def removeOwner : List (String × List Nat) → String → List (String × List Nat)
  | [], _ => []
  | (k, ps) :: rest, owner =>
      if k = owner then removeOwner rest owner
      else (k, ps) :: removeOwner rest owner

/-- Modelled from the spec: `release(owner)` of section 4.2 — frees the
entire set of ports held by that owner atomically; the cursor is not
rewound, so released port numbers are not recycled. -/
def releasePorts (s : PortState) (owner : String) : PortState :=
  { s with owned := removeOwner s.owned owner }

/-- Modelled from the spec: the allocator's initial state at a
configured start value — no owner holds any port. -/
def initPorts (start : Nat) : PortState :=
  { cursor := start, owned := [] }

/-- One allocator transition: some caller acquires a port or releases
an owner's whole set. -/
inductive PortStep : PortState → PortState → Prop where
  | acquire (s : PortState) (owner : String) :
      PortStep s (acquirePort s owner).2
  | release (s : PortState) (owner : String) :
      PortStep s (releasePorts s owner)

/-- States the allocator can reach from its initial state by any
sequence of acquisitions and releases. -/
def PortReachable (start : Nat) (s : PortState) : Prop :=
  Relation.ReflTransGen PortStep (initPorts start) s

/-- Allocator invariant: every held port lies strictly below the
cursor, and the port sets of distinct owners are disjoint. -/
def PortInv (s : PortState) : Prop :=
  (∀ x ∈ heldPorts s, x < s.cursor) ∧
  (∀ o1 o2, o1 ≠ o2 → ∀ x ∈ portsOf s o1, x ∉ portsOf s o2)

/-! Concrete fixtures mirroring the repository's plugin tree: a CPU
`bark` plugin, its GPU variant `bark-gpu`, a `coqui` plugin, plus a
directory with a broken manifest and a stray file, used to evaluate the
operations on closed inputs. -/

/-- Manifest of the CPU bark plugin. -/
def cfgBark : PluginConfig :=
  ⟨"tts-bark", [("DEVICE", "cpu")], [], [("8080/tcp", 5013)]⟩

/-- Manifest of the GPU bark variant. -/
def cfgBarkGpu : PluginConfig :=
  ⟨"tts-bark-gpu", [("DEVICE", "cuda")], [], [("8080/tcp", 5014)]⟩

/-- Manifest of the coqui plugin. -/
def cfgCoqui : PluginConfig :=
  ⟨"tts-coqui", [], [], [("5002/tcp", 5002)]⟩

/-- A plugin root listing with two good plugins, a GPU variant, a
malformed manifest, a manifest-less directory and a plain file. -/
def sampleEntries : List DirEntry :=
  [⟨"bark", true, .ok cfgBark⟩,
   ⟨"broken", true, .malformed⟩,
   ⟨"bark-gpu", true, .ok cfgBarkGpu⟩,
   ⟨"notes.txt", false, .missing⟩,
   ⟨"empty", true, .missing⟩,
   ⟨"coqui", true, .ok cfgCoqui⟩]

/-- Manager state right after scanning `sampleEntries`. -/
def m0 : Manager := scanPlugins ⟨[]⟩ sampleEntries

/-- Runtime state with no containers and no networks. -/
def d0 : DockerState := ⟨[], [], 0⟩

/-- Docker client behaviour in which every call succeeds. -/
def oracleOk : DockerOracle :=
  ⟨fun _ => .ok, fun _ => false, fun _ => false⟩

/-- Docker client behaviour in which `containers.run` for the bark
container fails after the container object was created (an OCI start
failure); everything else succeeds. -/
def oracleFailAfter : DockerOracle :=
  ⟨fun n => if n = "tts-bark" then .failAfterCreate else .ok,
   fun _ => false, fun _ => false⟩

/-- Docker client behaviour in which `container.stop` raises for the
bark container; everything else succeeds. -/
def oracleStopRaise : DockerOracle :=
  ⟨fun _ => .ok, fun n => n == "tts-bark", fun _ => false⟩

/-- Docker client behaviour in which `containers.get` raises a
non-`NotFound` error for the bark container. -/
def oracleGetRaise : DockerOracle :=
  ⟨fun _ => .ok, fun _ => false, fun n => n == "tts-bark"⟩

/-- Runtime state in which the bark container exists and is running. -/
def dRunning : DockerState :=
  ⟨[⟨"tts-bark", "tts-bark", "running", 0⟩], ["tts-network"], 1⟩

/-- Runtime state in which the bark container exists but has exited on
its own (a crashed or completed process): container status strings
evolve outside the manager, so any Docker status can be observed. -/
def dExited : DockerState :=
  ⟨[⟨"tts-bark", "tts-bark", "exited", 0⟩], ["tts-network"], 1⟩

/-- The lifecycle states named by the spec
(`stopped | starting | running | partial | stopping | unknown`). -/
def specStates : List String :=
  ["stopped", "starting", "running", "partial", "stopping", "unknown"]

/-- Boolean success test on an operation result. -/
def isOkResult : Except PyErr ResultDict → Bool
  | .ok _ => true
  | .error _ => false

/-- The raised exception of a failed operation, `none` on success. -/
def errOf : Except PyErr ResultDict → Option PyErr
  | .ok _ => none
  | .error e => some e

/-- The result dictionary of a successful operation, `none` on
failure. -/
def okOf : Except PyErr ResultDict → Option ResultDict
  | .ok r => some r
  | .error _ => none

/-- Allocator state after one acquisition by `bark` from start 5000. -/
def paS1 : PortState := (acquirePort (initPorts 5000) "bark").2

/-- Allocator state after a further acquisition by `coqui`. -/
def paS2 : PortState := (acquirePort paS1 "coqui").2

/-! Association-list lemmas for `setKey`, `setStatus` and `lookup`. -/

theorem lookup_setKey_self (l : List (String × PluginInfo)) (k : String)
    (v : PluginInfo) : (setKey l k v).lookup k = some v := by
  induction l with
  | nil => simp [setKey, List.lookup]
  | cons kv rest ih =>
      obtain ⟨k0, v0⟩ := kv
      by_cases h : k0 = k
      · simp [setKey, h, List.lookup]
      · have hb : (k == k0) = false := beq_eq_false_iff_ne.mpr fun hh => h hh.symm
        simp [setKey, h, List.lookup, hb, ih]

theorem lookup_setKey_ne (l : List (String × PluginInfo)) (k k' : String)
    (v : PluginInfo) (h : k' ≠ k) :
    (setKey l k v).lookup k' = l.lookup k' := by
  have hb : (k' == k) = false := beq_eq_false_iff_ne.mpr h
  induction l with
  | nil => simp [setKey, List.lookup, hb]
  | cons kv rest ih =>
      obtain ⟨k0, v0⟩ := kv
      by_cases h0 : k0 = k
      · subst h0
        simp [setKey, List.lookup, hb]
      · simp [setKey, h0, List.lookup, ih]

theorem lookup_setStatus_self (m : Manager) (k : String) (p : PluginInfo)
    (st : String) (h : m.plugins.lookup k = some p) :
    (setStatus m k st).plugins.lookup k = some { p with status := st } := by
  simp [setStatus, h, lookup_setKey_self]

theorem lookup_setStatus_ne (m : Manager) (k k' : String) (st : String)
    (h : k' ≠ k) :
    (setStatus m k st).plugins.lookup k' = m.plugins.lookup k' := by
  unfold setStatus
  cases hm : m.plugins.lookup k with
  | none => rfl
  | some p => simp [lookup_setKey_ne _ _ _ _ h]

/-! Simp facts about the runtime-state helpers. -/

@[simp] theorem ensureNetwork_containers (d : DockerState) :
    (ensureNetwork d).containers = d.containers := by
  unfold ensureNetwork; split <;> rfl

@[simp] theorem ensureNetwork_nextId (d : DockerState) :
    (ensureNetwork d).nextId = d.nextId := by
  unfold ensureNetwork; split <;> rfl

@[simp] theorem removeContainer_nextId (d : DockerState) (n : String) :
    (removeContainer d n).nextId = d.nextId := rfl

@[simp] theorem createContainer_nextId (d : DockerState) (img n st : String) :
    (createContainer d img n st).nextId = d.nextId + 1 := rfl

@[simp] theorem findContainer_createContainer_self (d : DockerState)
    (img n st : String) :
    findContainer (createContainer d img n st) n =
      some ⟨n, img, st, d.nextId⟩ := by
  simp [findContainer, createContainer, List.find?]

/-- Characterization of a fully successful `start_plugin` call: the
stale same-named container is removed, a fresh one is created and the
cached status becomes `running`. -/
theorem startPlugin_ok (o : DockerOracle) (m : Manager) (d : DockerState)
    (p : String) (pl : PluginInfo) (hp : m.plugins.lookup p = some pl)
    (hg : o.getRaises pl.container_name = false)
    (hr : o.runOutcome pl.container_name = .ok) :
    startPlugin o m d p =
      (true, setStatus m p "running",
        createContainer (removeContainer (ensureNetwork d) pl.container_name)
          pl.image pl.container_name "running") := by
  simp [startPlugin, hp, hg, hr]

/-- Characterization of a `start_plugin` call whose `containers.run`
fails after the container object was created: the call reports failure,
the cached registry is untouched, and the created container is left in
the runtime. -/
theorem startPlugin_failAfter (o : DockerOracle) (m : Manager)
    (d : DockerState) (p : String) (pl : PluginInfo)
    (hp : m.plugins.lookup p = some pl)
    (hg : o.getRaises pl.container_name = false)
    (hr : o.runOutcome pl.container_name = .failAfterCreate) :
    startPlugin o m d p =
      (false, m,
        createContainer (removeContainer (ensureNetwork d) pl.container_name)
          pl.image pl.container_name "created") := by
  simp [startPlugin, hp, hg, hr]

/-- C1: for every plugin name not present in the registry, each public
orchestrator operation — load, unload, restart, status — fails with
the unknown-plugin error (`ValueError`, the constructor the HTTP
facade maps to 404), which is a different constructor from the
`RuntimeError` used for start failures, so the unknown-name error is
never swallowed into a success or a generic start-failure result. -/
theorem C1_unknown_plugin (o : DockerOracle) (m : Manager) (d : DockerState)
    (name : String) (h : m.plugins.lookup name = none) :
    (loadServer o m d name).1 =
        .error (.valueError ("Unknown server type: " ++ name)) ∧
    (unloadServer o m d name).1 =
        .error (.valueError ("Unknown server type: " ++ name)) ∧
    (restartPlugin o m d name).1 =
        .error (.valueError ("Plugin " ++ name ++ " not found")) ∧
    (getServerStatus o m d name).1 =
        .error (.valueError ("Unknown server type: " ++ name)) ∧
    (∀ s t : String, PyErr.valueError s ≠ PyErr.runtimeError t) := by
  refine ⟨?_, ?_, ?_, ?_, fun s t hc => PyErr.noConfusion hc⟩ <;>
    simp [loadServer, unloadServer, restartPlugin, getServerStatus, h]

/-- Witness for C1: the name `nonexistent` is absent from the scanned
sample registry and the operations fail with the unknown-plugin
`ValueError`. -/
theorem C1_unknown_plugin_witness :
    m0.plugins.lookup "nonexistent" = none ∧
    (loadServer oracleOk m0 d0 "nonexistent").1 =
      .error (.valueError "Unknown server type: nonexistent") ∧
    (restartPlugin oracleOk m0 d0 "nonexistent").1 =
      .error (.valueError "Plugin nonexistent not found") :=
  ⟨by decide,
   (C1_unknown_plugin oracleOk m0 d0 "nonexistent" (by decide)).1,
   (C1_unknown_plugin oracleOk m0 d0 "nonexistent" (by decide)).2.2.1⟩

/-- C2 counterexample: `load` is not idempotent on a running plugin.
After a first successful `load` of `bark` (container id 0), a second
`load` is not a no-op: it force-removes the running container and
creates a fresh one (container id 1), leaving a different runtime
state. -/
theorem C2_counterexample :
    let L1 := loadServer oracleOk m0 d0 "bark"
    let L2 := loadServer oracleOk L1.2.1 L1.2.2 "bark"
    isOkResult L1.1 = true ∧
    (findContainer L1.2.2 "tts-bark").map Container.cid = some 0 ∧
    isOkResult L2.1 = true ∧
    (findContainer L2.2.2 "tts-bark").map Container.cid = some 1 ∧
    L2.2.2 ≠ L1.2.2 := by decide

/-- C2 amended: a second `load(p)` on an already-running plugin
succeeds and reports `running` both times, and no port state is ever
allocated (the plugin's configured ports stay exactly the manifest's),
but it is not a no-op: the existing container is removed and a fresh
container (a strictly larger container id) is created in its place. -/
theorem C2_amended (o : DockerOracle) (m : Manager) (d : DockerState)
    (p : String) (pl : PluginInfo) (hp : m.plugins.lookup p = some pl)
    (hg : o.getRaises pl.container_name = false)
    (hr : o.runOutcome pl.container_name = .ok) :
    let L1 := loadServer o m d p
    let L2 := loadServer o L1.2.1 L1.2.2 p
    isOkResult L1.1 = true ∧
    (L1.2.1.plugins.lookup p).map PluginInfo.status = some "running" ∧
    isOkResult L2.1 = true ∧
    (L2.2.1.plugins.lookup p).map PluginInfo.status = some "running" ∧
    (L2.2.1.plugins.lookup p).map PluginInfo.ports = some pl.ports ∧
    (findContainer L1.2.2 pl.container_name).map Container.cid = some d.nextId ∧
    (findContainer L2.2.2 pl.container_name).map Container.cid =
      some (d.nextId + 1) := by
  have hstart1 := startPlugin_ok o m d p pl hp hg hr
  have hm1 : (setStatus m p "running").plugins.lookup p
      = some { pl with status := "running" } :=
    lookup_setStatus_self m p pl "running" hp
  have hload1 : loadServer o m d p =
      (.ok ⟨p, some "loaded", (setStatus m p "running").plugins.lookup p⟩,
        setStatus m p "running",
        createContainer (removeContainer (ensureNetwork d) pl.container_name)
          pl.image pl.container_name "running") := by
    simp [loadServer, hp, hstart1]
  have hstart2 := startPlugin_ok o (setStatus m p "running")
      (createContainer (removeContainer (ensureNetwork d) pl.container_name)
        pl.image pl.container_name "running") p
      { pl with status := "running" } hm1 hg hr
  have hm2 : (setStatus (setStatus m p "running") p "running").plugins.lookup p
      = some { pl with status := "running" } :=
    lookup_setStatus_self _ p { pl with status := "running" } "running" hm1
  have hload2 : loadServer o (setStatus m p "running")
      (createContainer (removeContainer (ensureNetwork d) pl.container_name)
        pl.image pl.container_name "running") p =
      (.ok ⟨p, some "loaded",
          (setStatus (setStatus m p "running") p "running").plugins.lookup p⟩,
        setStatus (setStatus m p "running") p "running",
        createContainer
          (removeContainer
            (ensureNetwork (createContainer
              (removeContainer (ensureNetwork d) pl.container_name)
              pl.image pl.container_name "running")) pl.container_name)
          pl.image pl.container_name "running") := by
    simp [loadServer, hm1, hstart2]
  simp [hload1, hload2, hm1, hm2, isOkResult]

/-- Witness for C2 amended at the sample registry: two consecutive
loads of `bark` from the empty runtime. -/
theorem C2_amended_witness :
    let L1 := loadServer oracleOk m0 d0 "bark"
    let L2 := loadServer oracleOk L1.2.1 L1.2.2 "bark"
    isOkResult L1.1 = true ∧
    (L1.2.1.plugins.lookup "bark").map PluginInfo.status = some "running" ∧
    isOkResult L2.1 = true ∧
    (L2.2.1.plugins.lookup "bark").map PluginInfo.status = some "running" ∧
    (L2.2.1.plugins.lookup "bark").map PluginInfo.ports =
      some (mkPlugin "bark" cfgBark).ports ∧
    (findContainer L1.2.2 (mkPlugin "bark" cfgBark).container_name).map
      Container.cid = some d0.nextId ∧
    (findContainer L2.2.2 (mkPlugin "bark" cfgBark).container_name).map
      Container.cid = some (d0.nextId + 1) :=
  C2_amended oracleOk m0 d0 "bark" (mkPlugin "bark" cfgBark)
    (by decide) (by decide) (by decide)

/-- C3 counterexample: no rollback happens on a partial bring-up.  When
`containers.run` for `bark` fails after creating the container, the
error is surfaced, yet the partially created unit is still present in
the runtime, and a status query afterwards reports `created` — not
`stopped`. -/
theorem C3_counterexample :
    let L := loadServer oracleFailAfter m0 d0 "bark"
    errOf L.1 = some (.runtimeError "Failed to start plugin: bark") ∧
    (findContainer L.2.2 "tts-bark").map Container.status = some "created" ∧
    (getPluginStatus oracleFailAfter L.2.1 L.2.2 "bark").1 = some "created" ∧
    some "created" ≠ some "stopped" := by decide

/-- C3 amended: when bring-up fails after the execution unit was
created, the orchestrator performs no rollback — the `RuntimeError` is
surfaced while the partially created unit remains in the runtime in
`created` state, and the plugin's cached status merely keeps its
previous value. -/
theorem C3_amended (o : DockerOracle) (m : Manager) (d : DockerState)
    (p : String) (pl : PluginInfo) (hp : m.plugins.lookup p = some pl)
    (hg : o.getRaises pl.container_name = false)
    (hr : o.runOutcome pl.container_name = .failAfterCreate) :
    loadServer o m d p =
      (.error (.runtimeError ("Failed to start plugin: " ++ p)), m,
        createContainer (removeContainer (ensureNetwork d) pl.container_name)
          pl.image pl.container_name "created") ∧
    (findContainer (loadServer o m d p).2.2 pl.container_name).map
        Container.status = some "created" ∧
    (loadServer o m d p).2.1.plugins.lookup p = some pl := by
  have hfail := startPlugin_failAfter o m d p pl hp hg hr
  refine ⟨?_, ?_, ?_⟩ <;> simp [loadServer, hp, hfail]

/-- A `start_plugin` call that reports failure never modifies the
in-memory registry. -/
theorem startPlugin_false_manager (o : DockerOracle) (m : Manager)
    (d : DockerState) (p : String) :
    (startPlugin o m d p).1 = false → (startPlugin o m d p).2.1 = m := by
  unfold startPlugin
  cases hl : m.plugins.lookup p with
  | none => intro _; rfl
  | some pl =>
      by_cases hg : o.getRaises pl.container_name
      · simp [hg]
      · simp [hg]
        cases hr : o.runOutcome pl.container_name <;> simp

/-- A `stop_plugin` call that reports success always leaves the cached
status at `stopped`. -/
theorem stopPlugin_true_manager (o : DockerOracle) (m : Manager)
    (d : DockerState) (p : String) (pl : PluginInfo)
    (hp : m.plugins.lookup p = some pl) (m1 : Manager) (d1 : DockerState)
    (h : stopPlugin o m d p = (true, m1, d1)) :
    m1 = setStatus m p "stopped" := by
  unfold stopPlugin at h
  rw [hp] at h
  by_cases hg : o.getRaises pl.container_name
  · simp [hg] at h
  · simp [hg] at h
    cases hf : findContainer d pl.container_name with
    | none => rw [hf] at h; simp at h; exact h.1.symm
    | some c =>
        rw [hf] at h
        by_cases hs : o.stopRaises pl.container_name
        · simp [hs] at h
        · simp [hs] at h; exact h.1.symm

/-- Witness for C3 amended: the failing bring-up of `bark` leaves the
created container behind and the registry entry untouched. -/
theorem C3_amended_witness :
    (findContainer (loadServer oracleFailAfter m0 d0 "bark").2.2
        (mkPlugin "bark" cfgBark).container_name).map Container.status =
      some "created" ∧
    (loadServer oracleFailAfter m0 d0 "bark").2.1.plugins.lookup "bark" =
      some (mkPlugin "bark" cfgBark) :=
  ⟨(C3_amended oracleFailAfter m0 d0 "bark" (mkPlugin "bark" cfgBark)
      (by decide) (by decide) (by decide)).2.1,
   (C3_amended oracleFailAfter m0 d0 "bark" (mkPlugin "bark" cfgBark)
      (by decide) (by decide) (by decide)).2.2⟩

/-- C5: teardown of a known plugin is idempotent — when the runtime
reports the container as already gone (`NotFound`), `stop_plugin`
succeeds and the cached status becomes `stopped`; any other runtime
error during teardown is surfaced as a failure result. -/
theorem C5_teardown_idempotent (o : DockerOracle) (m : Manager)
    (d : DockerState) (p : String) (pl : PluginInfo)
    (hp : m.plugins.lookup p = some pl)
    (hg : o.getRaises pl.container_name = false) :
    (findContainer d pl.container_name = none →
      stopPlugin o m d p = (true, setStatus m p "stopped", d) ∧
      ((stopPlugin o m d p).2.1.plugins.lookup p).map PluginInfo.status =
        some "stopped") ∧
    (∀ c, findContainer d pl.container_name = some c →
      o.stopRaises pl.container_name = true →
      (stopPlugin o m d p).1 = false) := by
  constructor
  · intro hnone
    have he : stopPlugin o m d p = (true, setStatus m p "stopped", d) := by
      simp [stopPlugin, hp, hg, hnone]
    refine ⟨he, ?_⟩
    rw [he]
    simp [lookup_setStatus_self m p pl "stopped" hp]
  · intro c hsome hraise
    simp [stopPlugin, hp, hg, hsome, hraise]

/-- Witness for C5: stopping `bark` with no container present succeeds
and caches `stopped`; stopping it when `container.stop` raises reports
failure. -/
theorem C5_teardown_idempotent_witness :
    stopPlugin oracleOk m0 d0 "bark" =
      (true, setStatus m0 "bark" "stopped", d0) ∧
    (stopPlugin oracleStopRaise m0 dRunning "bark").1 = false :=
  ⟨((C5_teardown_idempotent oracleOk m0 d0 "bark" (mkPlugin "bark" cfgBark)
      (by decide) (by decide)).1 (by decide)).1,
   (C5_teardown_idempotent oracleStopRaise m0 dRunning "bark"
      (mkPlugin "bark" cfgBark) (by decide) (by decide)).2
     ⟨"tts-bark", "tts-bark", "running", 0⟩ (by decide) (by decide)⟩

/-- C6 counterexample: the status operation does not always return one
of the spec's lifecycle states.  With the bark container existing in
Docker's `exited` state (containers exit on their own, outside the
manager), `get_plugin_status` returns the raw string `exited`, which is
none of `stopped/starting/running/partial/stopping/unknown`. -/
theorem C6_counterexample :
    (getPluginStatus oracleOk m0 dExited "bark").1 = some "exited" ∧
    (okOf (getServerStatus oracleOk m0 dExited "bark").1).map ResultDict.status =
      some (some "exited") ∧
    "exited" ∉ specStates := by decide

/-- C6 amended: for a known plugin, `status` re-derives the value from
a live `containers.get` — a `NotFound` yields `stopped`, a found
container yields the runtime's raw status string — and writes the
derived value into the cached `PluginState`; a non-`NotFound` inspect
error yields `unknown` without a cache write.  The returned string is
whatever the runtime reports, not necessarily one of the five spec
states. -/
theorem C6_amended (o : DockerOracle) (m : Manager) (d : DockerState)
    (p : String) (pl : PluginInfo) (hp : m.plugins.lookup p = some pl) :
    (o.getRaises pl.container_name = true →
      getPluginStatus o m d p = (some "unknown", m)) ∧
    (o.getRaises pl.container_name = false →
      (findContainer d pl.container_name = none →
        getPluginStatus o m d p = (some "stopped", setStatus m p "stopped") ∧
        ((getPluginStatus o m d p).2.plugins.lookup p).map PluginInfo.status =
          some "stopped") ∧
      (∀ c, findContainer d pl.container_name = some c →
        getPluginStatus o m d p = (some c.status, setStatus m p c.status) ∧
        ((getPluginStatus o m d p).2.plugins.lookup p).map PluginInfo.status =
          some c.status)) := by
  refine ⟨fun hg => by simp [getPluginStatus, hp, hg], fun hg => ⟨?_, ?_⟩⟩
  · intro hnone
    have he : getPluginStatus o m d p = (some "stopped", setStatus m p "stopped") := by
      simp [getPluginStatus, hp, hg, hnone]
    exact ⟨he, by rw [he]; simp [lookup_setStatus_self m p pl "stopped" hp]⟩
  · intro c hsome
    have he : getPluginStatus o m d p = (some c.status, setStatus m p c.status) := by
      simp [getPluginStatus, hp, hg, hsome]
    exact ⟨he, by rw [he]; simp [lookup_setStatus_self m p pl c.status hp]⟩

/-- Witness for C6 amended: the three inspect outcomes at concrete
states — a raising get, an absent container, an exited container. -/
theorem C6_amended_witness :
    getPluginStatus oracleGetRaise m0 dRunning "bark" = (some "unknown", m0) ∧
    getPluginStatus oracleOk m0 d0 "bark" =
      (some "stopped", setStatus m0 "bark" "stopped") ∧
    getPluginStatus oracleOk m0 dExited "bark" =
      (some "exited", setStatus m0 "bark" "exited") :=
  ⟨(C6_amended oracleGetRaise m0 dRunning "bark" (mkPlugin "bark" cfgBark)
      (by decide)).1 (by decide),
   (((C6_amended oracleOk m0 d0 "bark" (mkPlugin "bark" cfgBark)
      (by decide)).2 (by decide)).1 (by decide)).1,
   (((C6_amended oracleOk m0 dExited "bark" (mkPlugin "bark" cfgBark)
      (by decide)).2 (by decide)).2
     ⟨"tts-bark", "tts-bark", "exited", 0⟩ (by decide)).1⟩

/-- C7: `restart` on a known plugin fails with a `RuntimeError`
(`RestartFailed` semantics, distinct from any success result) whenever
the stop phase or the start phase fails; after a failed start phase the
plugin is cached as `stopped` while the error — not a success — is
returned.  When both phases succeed the result is `restarted`. -/
theorem C7_restart (o : DockerOracle) (m : Manager) (d : DockerState)
    (p : String) (pl : PluginInfo) (hp : m.plugins.lookup p = some pl) :
    ((stopPlugin o m d p).1 = false →
      (restartPlugin o m d p).1 =
        .error (.runtimeError ("Failed to stop plugin: " ++ p)) ∧
      okOf (restartPlugin o m d p).1 = none) ∧
    (∀ m1 d1, stopPlugin o m d p = (true, m1, d1) →
      (startPlugin o m1 d1 p).1 = false →
      (restartPlugin o m d p).1 =
        .error (.runtimeError ("Failed to start plugin: " ++ p)) ∧
      ((restartPlugin o m d p).2.1.plugins.lookup p).map PluginInfo.status =
        some "stopped") ∧
    (∀ m1 d1, stopPlugin o m d p = (true, m1, d1) →
      (startPlugin o m1 d1 p).1 = true →
      (restartPlugin o m d p).1 =
        .ok ⟨p, some "restarted",
          ((startPlugin o m1 d1 p).2.1).plugins.lookup p⟩) := by
  refine ⟨?_, ?_, ?_⟩
  · intro hfail
    rcases hS : stopPlugin o m d p with ⟨b, m1, d1⟩
    have hb : b = false := by rw [hS] at hfail; exact hfail
    subst hb
    constructor <;> simp [restartPlugin, hp, hS, okOf]
  · intro m1 d1 hstop hsfail
    have hm1 := stopPlugin_true_manager o m d p pl hp m1 d1 hstop
    rcases hS2 : startPlugin o m1 d1 p with ⟨b2, m2, d2⟩
    have hb2 : b2 = false := by rw [hS2] at hsfail; exact hsfail
    subst hb2
    have hm2 : m2 = m1 := by
      have := startPlugin_false_manager o m1 d1 p
      rw [hS2] at this
      exact this rfl
    constructor
    · simp [restartPlugin, hp, hstop, hS2]
    · have hres : (restartPlugin o m d p).2.1 = m2 := by
        simp [restartPlugin, hp, hstop, hS2]
      rw [hres, hm2, hm1]
      simp [lookup_setStatus_self m p pl "stopped" hp]
  · intro m1 d1 hstop hsok
    rcases hS2 : startPlugin o m1 d1 p with ⟨b2, m2, d2⟩
    have hb2 : b2 = true := by rw [hS2] at hsok; exact hsok
    subst hb2
    simp [restartPlugin, hp, hstop, hS2]

/-- Witness for C7: a failing stop phase, a failing start phase (with
the plugin cached as `stopped` and an error returned), and a fully
successful restart. -/
theorem C7_restart_witness :
    (restartPlugin oracleStopRaise m0 dRunning "bark").1 =
      .error (.runtimeError "Failed to stop plugin: bark") ∧
    (restartPlugin oracleFailAfter m0 d0 "bark").1 =
      .error (.runtimeError "Failed to start plugin: bark") ∧
    ((restartPlugin oracleFailAfter m0 d0 "bark").2.1.plugins.lookup
        "bark").map PluginInfo.status = some "stopped" ∧
    (restartPlugin oracleOk m0 dRunning "bark").1 =
      .ok ⟨"bark", some "restarted",
        ((startPlugin oracleOk (stopPlugin oracleOk m0 dRunning "bark").2.1
          (stopPlugin oracleOk m0 dRunning "bark").2.2 "bark").2.1).plugins.lookup
          "bark"⟩ :=
  ⟨((C7_restart oracleStopRaise m0 dRunning "bark" (mkPlugin "bark" cfgBark)
      (by decide)).1 (by decide)).1,
   ((C7_restart oracleFailAfter m0 d0 "bark" (mkPlugin "bark" cfgBark)
      (by decide)).2.1 (stopPlugin oracleFailAfter m0 d0 "bark").2.1
      (stopPlugin oracleFailAfter m0 d0 "bark").2.2 (by decide) (by decide)).1,
   ((C7_restart oracleFailAfter m0 d0 "bark" (mkPlugin "bark" cfgBark)
      (by decide)).2.1 (stopPlugin oracleFailAfter m0 d0 "bark").2.1
      (stopPlugin oracleFailAfter m0 d0 "bark").2.2 (by decide) (by decide)).2,
   (C7_restart oracleOk m0 dRunning "bark" (mkPlugin "bark" cfgBark)
      (by decide)).2.2 (stopPlugin oracleOk m0 dRunning "bark").2.1
      (stopPlugin oracleOk m0 dRunning "bark").2.2 (by decide) (by decide)⟩

/-! Registry-scan lemmas. -/

/-- One scan step never touches a registry key other than the entry's
own directory name. -/
theorem scanStep_lookup_ne (m : Manager) (e : DirEntry) (k : String)
    (h : k ≠ e.ename) :
    (scanStep m e).plugins.lookup k = m.plugins.lookup k := by
  unfold scanStep
  by_cases hd : e.isDir
  · simp [hd]
    cases e.manifest with
    | missing => rfl
    | malformed => rfl
    | ok cfg => exact lookup_setKey_ne _ _ _ _ h
  · simp [hd]

/-- A scan of directories none of which carries the key `k` leaves the
registry at `k` unchanged. -/
theorem scanPlugins_lookup_not_mem (entries : List DirEntry) (m : Manager)
    (k : String) (h : k ∉ entries.map DirEntry.ename) :
    (scanPlugins m entries).plugins.lookup k = m.plugins.lookup k := by
  induction entries generalizing m with
  | nil => rfl
  | cons e rest ih =>
      simp only [List.map_cons, List.mem_cons, not_or] at h
      show (scanPlugins (scanStep m e) rest).plugins.lookup k = _
      rw [ih _ h.2, scanStep_lookup_ne _ _ _ h.1]

/-- Every directory with a good manifest ends up registered under its
own full directory name, whatever the other entries look like. -/
theorem scanPlugins_lookup_good (entries : List DirEntry) (m : Manager)
    (hnodup : (entries.map DirEntry.ename).Nodup)
    (e : DirEntry) (he : e ∈ entries) (hd : e.isDir = true)
    (cfg : PluginConfig) (hm : e.manifest = .ok cfg) :
    (scanPlugins m entries).plugins.lookup e.ename =
      some (mkPlugin e.ename cfg) := by
  obtain ⟨l1, l2, rfl⟩ := List.append_of_mem he
  have hsplit : scanPlugins m (l1 ++ e :: l2) =
      scanPlugins (scanStep (scanPlugins m l1) e) l2 := by
    simp [scanPlugins, List.foldl_append]
  have hnil2 : e.ename ∉ l2.map DirEntry.ename := by
    have h2 : ((e :: l2).map DirEntry.ename).Nodup := by
      rw [List.map_append] at hnodup
      exact hnodup.of_append_right
    simp only [List.map_cons, List.nodup_cons] at h2
    exact h2.1
  rw [hsplit, scanPlugins_lookup_not_mem _ _ _ hnil2]
  simp [scanStep, hd, hm, lookup_setKey_self]

/-- A directory whose manifest is missing or malformed (or a non-
directory entry) is skipped: the registry at its key is exactly what it
was before the scan. -/
theorem scanPlugins_lookup_bad (entries : List DirEntry) (m : Manager)
    (hnodup : (entries.map DirEntry.ename).Nodup)
    (e : DirEntry) (he : e ∈ entries)
    (hbad : e.isDir = false ∨ e.manifest = .missing ∨ e.manifest = .malformed) :
    (scanPlugins m entries).plugins.lookup e.ename =
      m.plugins.lookup e.ename := by
  obtain ⟨l1, l2, rfl⟩ := List.append_of_mem he
  have hsplit : scanPlugins m (l1 ++ e :: l2) =
      scanPlugins (scanStep (scanPlugins m l1) e) l2 := by
    simp [scanPlugins, List.foldl_append]
  rw [List.map_append, List.nodup_append] at hnodup
  have hnil2 : e.ename ∉ l2.map DirEntry.ename := by
    have h2 := hnodup.2.1
    simp only [List.map_cons, List.nodup_cons] at h2
    exact h2.1
  have hnil1 : e.ename ∉ l1.map DirEntry.ename := by
    intro hmem
    exact hnodup.2.2 hmem (by simp)
  have hstep : (scanStep (scanPlugins m l1) e).plugins.lookup e.ename =
      (scanPlugins m l1).plugins.lookup e.ename := by
    rcases hbad with hb | hb | hb
    · simp [scanStep, hb]
    · simp [scanStep, hb]
    · simp [scanStep, hb]
  rw [hsplit, scanPlugins_lookup_not_mem _ _ _ hnil2, hstep,
    scanPlugins_lookup_not_mem _ _ _ hnil1]

/-- C8: scan robustness — every directory whose manifest is missing or
malformed is skipped while every valid plugin is still registered under
its own full directory-name key (one bad plugin never aborts
discovery); a GPU-marked directory keeps its own key, its derived
device class is GPU and its logical name is the directory name with
`-gpu` removed, so it is never merged into the CPU variant's entry. -/
theorem C8_scan_robustness (entries : List DirEntry) (m : Manager)
    (hnodup : (entries.map DirEntry.ename).Nodup) :
    (∀ e ∈ entries, e.isDir = true → ∀ cfg, e.manifest = .ok cfg →
      (scanPlugins m entries).plugins.lookup e.ename =
        some (mkPlugin e.ename cfg)) ∧
    (∀ e ∈ entries,
      e.isDir = false ∨ e.manifest = .missing ∨ e.manifest = .malformed →
      (scanPlugins m entries).plugins.lookup e.ename =
        m.plugins.lookup e.ename) ∧
    (∀ dirName : String, isGpuDir dirName = true →
      deviceClass dirName = "gpu" ∧
      ∀ cfg, (mkPlugin dirName cfg).name = strRemove dirName "-gpu" ∧
        (mkPlugin dirName cfg).container_name = "tts-" ++ dirName) ∧
    (∀ dirName : String, isGpuDir dirName = false →
      deviceClass dirName = "cpu" ∧
      ∀ cfg, (mkPlugin dirName cfg).name = dirName) := by
  refine ⟨fun e he hd cfg hm =>
      scanPlugins_lookup_good entries m hnodup e he hd cfg hm,
    fun e he hbad => scanPlugins_lookup_bad entries m hnodup e he hbad,
    fun dirName hgpu => ⟨by simp [deviceClass, hgpu],
      fun cfg => ⟨by simp [mkPlugin, logicalName, hgpu], rfl⟩⟩,
    fun dirName hgpu => ⟨by simp [deviceClass, hgpu],
      fun cfg => by simp [mkPlugin, logicalName, hgpu]⟩⟩

/-- Witness for C8 at the sample plugin tree: the broken manifest is
skipped while `bark`, `bark-gpu` and `coqui` are registered; the GPU
variant keeps its own key and tag. -/
theorem C8_scan_robustness_witness :
    m0.plugins.lookup "bark-gpu" = some (mkPlugin "bark-gpu" cfgBarkGpu) ∧
    m0.plugins.lookup "bark" = some (mkPlugin "bark" cfgBark) ∧
    m0.plugins.lookup "broken" = (⟨[]⟩ : Manager).plugins.lookup "broken" ∧
    deviceClass "bark-gpu" = "gpu" ∧
    (mkPlugin "bark-gpu" cfgBarkGpu).name = strRemove "bark-gpu" "-gpu" ∧
    deviceClass "bark" = "cpu" :=
  ⟨(C8_scan_robustness sampleEntries ⟨[]⟩ (by decide)).1
      ⟨"bark-gpu", true, .ok cfgBarkGpu⟩ (by decide) rfl cfgBarkGpu rfl,
   (C8_scan_robustness sampleEntries ⟨[]⟩ (by decide)).1
      ⟨"bark", true, .ok cfgBark⟩ (by decide) rfl cfgBark rfl,
   (C8_scan_robustness sampleEntries ⟨[]⟩ (by decide)).2.1
      ⟨"broken", true, .malformed⟩ (by decide) (Or.inr (Or.inr rfl)),
   ((C8_scan_robustness sampleEntries ⟨[]⟩ (by decide)).2.2.1 "bark-gpu"
      (by decide)).1,
   (((C8_scan_robustness sampleEntries ⟨[]⟩ (by decide)).2.2.1 "bark-gpu"
      (by decide)).2 cfgBarkGpu).1,
   ((C8_scan_robustness sampleEntries ⟨[]⟩ (by decide)).2.2.2 "bark"
      (by decide)).1⟩

/-! Container-naming lemmas. -/

/-- Appending distinct suffixes to the `tts-` prefix yields distinct
container names. -/
theorem ttsPrefix_inj (k1 k2 : String) (h : "tts-" ++ k1 = "tts-" ++ k2) :
    k1 = k2 := by
  have hd : ("tts-" ++ k1).data = ("tts-" ++ k2).data := by rw [h]
  simp only [String.data_append] at hd
  have h2 : k1.data = k2.data := List.append_cancel_left hd
  cases k1
  cases k2
  exact congrArg String.mk h2

/-- Scanning preserves the naming invariant: every registry value's
container name is `tts-` followed by its key, and its logical name is
the key with the GPU marker handling of the source applied. -/
theorem scanPlugins_naming (entries : List DirEntry) (m : Manager)
    (hm : ∀ k i, m.plugins.lookup k = some i →
      i.container_name = "tts-" ++ k ∧ i.name = logicalName k) :
    ∀ k i, (scanPlugins m entries).plugins.lookup k = some i →
      i.container_name = "tts-" ++ k ∧ i.name = logicalName k := by
  induction entries generalizing m with
  | nil => exact hm
  | cons e rest ih =>
      show ∀ k i, (scanPlugins (scanStep m e) rest).plugins.lookup k = some i → _
      apply ih
      intro k i hk
      by_cases hd : e.isDir
      · cases hman : e.manifest with
        | missing =>
            rw [scanStep, hman] at hk
            exact hm k i (by simpa using hk)
        | malformed =>
            rw [scanStep, hman] at hk
            exact hm k i (by simpa using hk)
        | ok cfg =>
            rw [scanStep, hman, hd] at hk
            by_cases hke : k = e.ename
            · subst hke
              rw [show ((if !true then m
                    else ⟨setKey m.plugins e.ename (mkPlugin e.ename cfg)⟩) :
                    Manager) =
                  ⟨setKey m.plugins e.ename (mkPlugin e.ename cfg)⟩ from rfl,
                lookup_setKey_self] at hk
              cases hk
              exact ⟨rfl, rfl⟩
            · rw [show ((if !true then m
                    else ⟨setKey m.plugins e.ename (mkPlugin e.ename cfg)⟩) :
                    Manager) =
                  ⟨setKey m.plugins e.ename (mkPlugin e.ename cfg)⟩ from rfl,
                lookup_setKey_ne _ _ _ _ hke] at hk
              exact hm k i hk
      · rw [scanStep] at hk
        simp only [hd] at hk
        exact hm k i (by simpa using hk)

/-- Membership in the runtime state after a removal. -/
theorem mem_removeContainer (c : Container) (d : DockerState) (n : String) :
    c ∈ (removeContainer d n).containers ↔ c ∈ d.containers ∧ c.name ≠ n := by
  simp [removeContainer, List.mem_filter]

/-- Membership in the runtime state after a creation. -/
theorem mem_createContainer (c : Container) (d : DockerState)
    (img n st : String) :
    c ∈ (createContainer d img n st).containers ↔
      c = ⟨n, img, st, d.nextId⟩ ∨ c ∈ d.containers := by
  simp [createContainer]

/-- Characterization of `start_plugin` when the stale-container lookup
raises a non-`NotFound` error. -/
theorem startPlugin_getRaisesEq (o : DockerOracle) (m : Manager)
    (d : DockerState) (p : String) (pl : PluginInfo)
    (hp : m.plugins.lookup p = some pl)
    (hg : o.getRaises pl.container_name = true) :
    startPlugin o m d p = (false, m, ensureNetwork d) := by
  simp [startPlugin, hp, hg]

/-- Characterization of `start_plugin` when `containers.run` fails
before creating anything. -/
theorem startPlugin_failBefore (o : DockerOracle) (m : Manager)
    (d : DockerState) (p : String) (pl : PluginInfo)
    (hp : m.plugins.lookup p = some pl)
    (hg : o.getRaises pl.container_name = false)
    (hr : o.runOutcome pl.container_name = .failBeforeCreate) :
    startPlugin o m d p =
      (false, m, removeContainer (ensureNetwork d) pl.container_name) := by
  simp [startPlugin, hp, hg, hr]

/-- Frame property of `start_plugin`: containers not named after the
plugin's own registry entry are untouched, and any container the call
adds bears the plugin's own container name. -/
theorem startPlugin_frame (o : DockerOracle) (m : Manager) (d : DockerState)
    (p : String) (pl : PluginInfo) (hp : m.plugins.lookup p = some pl) :
    (∀ c ∈ d.containers, c.name ≠ pl.container_name →
      c ∈ (startPlugin o m d p).2.2.containers) ∧
    (∀ c ∈ (startPlugin o m d p).2.2.containers,
      c ∈ d.containers ∨ c.name = pl.container_name) := by
  by_cases hg : o.getRaises pl.container_name
  · rw [startPlugin_getRaisesEq o m d p pl hp hg]
    exact ⟨fun c hc _ => by simpa using hc, fun c hc => Or.inl (by simpa using hc)⟩
  · have hg' : o.getRaises pl.container_name = false := by
      simpa using hg
    cases hr : o.runOutcome pl.container_name with
    | failBeforeCreate =>
        rw [startPlugin_failBefore o m d p pl hp hg' hr]
        constructor
        · intro c hc hne
          rw [mem_removeContainer]
          exact ⟨by simpa using hc, hne⟩
        · intro c hc
          rw [mem_removeContainer] at hc
          exact Or.inl (by simpa using hc.1)
    | failAfterCreate =>
        rw [startPlugin_failAfter o m d p pl hp hg' hr]
        constructor
        · intro c hc hne
          rw [mem_createContainer]
          right
          rw [mem_removeContainer]
          exact ⟨by simpa using hc, hne⟩
        · intro c hc
          rw [mem_createContainer] at hc
          rcases hc with rfl | hc
          · exact Or.inr rfl
          · rw [mem_removeContainer] at hc
            exact Or.inl (by simpa using hc.1)
    | ok =>
        rw [startPlugin_ok o m d p pl hp hg' hr]
        constructor
        · intro c hc hne
          rw [mem_createContainer]
          right
          rw [mem_removeContainer]
          exact ⟨by simpa using hc, hne⟩
        · intro c hc
          rw [mem_createContainer] at hc
          rcases hc with rfl | hc
          · exact Or.inr rfl
          · rw [mem_removeContainer] at hc
            exact Or.inl (by simpa using hc.1)

/-- Frame property of `stop_plugin`: only the plugin's own container
can be removed, and nothing is ever added. -/
theorem stopPlugin_frame (o : DockerOracle) (m : Manager) (d : DockerState)
    (p : String) (pl : PluginInfo) (hp : m.plugins.lookup p = some pl) :
    (∀ c ∈ d.containers, c.name ≠ pl.container_name →
      c ∈ (stopPlugin o m d p).2.2.containers) ∧
    (∀ c ∈ (stopPlugin o m d p).2.2.containers, c ∈ d.containers) := by
  unfold stopPlugin
  rw [hp]
  by_cases hg : o.getRaises pl.container_name
  · simp [hg]
    exact fun c hc _ => hc
  · simp only [hg, Bool.false_eq_true, if_false]
    cases hf : findContainer d pl.container_name with
    | none => exact ⟨fun c hc _ => hc, fun c hc => hc⟩
    | some c0 =>
        by_cases hs : o.stopRaises pl.container_name
        · simp [hs]
          exact fun c hc _ => hc
        · simp only [hs, Bool.false_eq_true, if_false]
          constructor
          · intro c hc hne
            rw [mem_removeContainer]
            exact ⟨hc, hne⟩
          · intro c hc
            rw [mem_removeContainer] at hc
            exact hc.1

/-- The status operation reads the runtime only through the plugin's
own container name: two runtime states agreeing on that name yield the
same status result. -/
theorem getPluginStatus_local (o : DockerOracle) (m : Manager) (p : String)
    (pl : PluginInfo) (hp : m.plugins.lookup p = some pl)
    (d d' : DockerState)
    (h : findContainer d pl.container_name =
      findContainer d' pl.container_name) :
    getPluginStatus o m d p = getPluginStatus o m d' p := by
  simp [getPluginStatus, hp, h]

/-- C10: implicit container-naming invariant — every registry entry
produced by a scan has container name `tts-` ++ its own key and logical
name equal to the key with the source's GPU-marker stripping applied;
the `tts-` naming is injective, so distinct registry keys (such as a
CPU and a GPU variant) always target distinct containers; and each
start/stop/status operation touches or reads only the container named
after its own registry entry. -/
theorem C10_container_naming (entries : List DirEntry) :
    (∀ k i, (scanPlugins ⟨[]⟩ entries).plugins.lookup k = some i →
      i.container_name = "tts-" ++ k ∧ i.name = logicalName k) ∧
    (∀ k1 k2 : String, "tts-" ++ k1 = "tts-" ++ k2 → k1 = k2) ∧
    (∀ o m d p pl, m.plugins.lookup p = some pl →
      (∀ c ∈ d.containers, c.name ≠ pl.container_name →
        c ∈ (startPlugin o m d p).2.2.containers) ∧
      (∀ c ∈ (startPlugin o m d p).2.2.containers,
        c ∈ d.containers ∨ c.name = pl.container_name) ∧
      (∀ c ∈ d.containers, c.name ≠ pl.container_name →
        c ∈ (stopPlugin o m d p).2.2.containers) ∧
      (∀ c ∈ (stopPlugin o m d p).2.2.containers, c ∈ d.containers) ∧
      (∀ d', findContainer d pl.container_name =
          findContainer d' pl.container_name →
        getPluginStatus o m d p = getPluginStatus o m d' p)) := by
  refine ⟨?_, ttsPrefix_inj, ?_⟩
  · apply scanPlugins_naming
    intro k i hk
    simp [List.lookup] at hk
  · intro o m d p pl hp
    exact ⟨(startPlugin_frame o m d p pl hp).1,
      (startPlugin_frame o m d p pl hp).2,
      (stopPlugin_frame o m d p pl hp).1,
      (stopPlugin_frame o m d p pl hp).2,
      fun d' h => getPluginStatus_local o m p pl hp d d' h⟩

/-- Witness for C10 at the sample plugin tree: the GPU variant's
container name and logical name, injectivity at two distinct keys, and
the frame property of a start on an unrelated container. -/
theorem C10_container_naming_witness :
    ((scanPlugins ⟨[]⟩ sampleEntries).plugins.lookup "bark-gpu").map
      PluginInfo.container_name = some ("tts-" ++ "bark-gpu") ∧
    ((scanPlugins ⟨[]⟩ sampleEntries).plugins.lookup "bark-gpu").map
      PluginInfo.name = some (logicalName "bark-gpu") ∧
    ("tts-" ++ "bark" = "tts-" ++ "bark-gpu" → ("bark" : String) = "bark-gpu") ∧
    (∀ c ∈ dExited.containers,
      c.name ≠ (mkPlugin "coqui" cfgCoqui).container_name →
      c ∈ (startPlugin oracleOk m0 dExited "coqui").2.2.containers) := by
  have h := C10_container_naming sampleEntries
  refine ⟨?_, ?_, h.2.1 "bark" "bark-gpu", (h.2.2 oracleOk m0 dExited "coqui"
    (mkPlugin "coqui" cfgCoqui) (by decide)).1⟩
  · have h1 := h.1 "bark-gpu" (mkPlugin "bark-gpu" cfgBarkGpu) (by decide)
    rw [show (scanPlugins ⟨[]⟩ sampleEntries).plugins.lookup "bark-gpu" =
      some (mkPlugin "bark-gpu" cfgBarkGpu) from by decide]
    simpa using h1.1
  · have h1 := h.1 "bark-gpu" (mkPlugin "bark-gpu" cfgBarkGpu) (by decide)
    rw [show (scanPlugins ⟨[]⟩ sampleEntries).plugins.lookup "bark-gpu" =
      some (mkPlugin "bark-gpu" cfgBarkGpu) from by decide]
    simpa using h1.2

/-! Port-allocator lemmas. -/

/-- Membership in the multiset of all held ports, by owner entry. -/
theorem mem_flatten_snd {l : List (String × List Nat)} {x : Nat} :
    x ∈ (l.map Prod.snd).flatten ↔ ∃ kv, kv ∈ l ∧ x ∈ kv.2 := by
  simp [List.mem_flatten]
  tauto

/-- Looking up the owner that just acquired a port sees the port in
front of its previous set. -/
theorem lookup_addPort_self (l : List (String × List Nat)) (owner : String)
    (p : Nat) :
    (addPort l owner p).lookup owner = some (p :: ((l.lookup owner).getD [])) := by
  induction l with
  | nil => simp [addPort, List.lookup]
  | cons kv rest ih =>
      obtain ⟨k, ps⟩ := kv
      by_cases hk : k = owner
      · subst hk
        simp [addPort, List.lookup]
      · have hb : (owner == k) = false := beq_eq_false_iff_ne.mpr fun hh => hk hh.symm
        simp [addPort, hk, List.lookup, hb, ih]

/-- Acquisition by one owner does not change any other owner's set. -/
theorem lookup_addPort_ne (l : List (String × List Nat)) (owner o' : String)
    (p : Nat) (h : o' ≠ owner) :
    (addPort l owner p).lookup o' = l.lookup o' := by
  have hb : (o' == owner) = false := beq_eq_false_iff_ne.mpr h
  induction l with
  | nil => simp [addPort, List.lookup, hb]
  | cons kv rest ih =>
      obtain ⟨k, ps⟩ := kv
      by_cases hk : k = owner
      · subst hk
        simp [addPort, List.lookup, hb]
      · simp [addPort, hk, List.lookup, ih]

/-- The held ports after an acquisition are the new port and the
previously held ones. -/
theorem mem_held_addPort (l : List (String × List Nat)) (owner : String)
    (p x : Nat) :
    x ∈ ((addPort l owner p).map Prod.snd).flatten ↔
      x = p ∨ x ∈ (l.map Prod.snd).flatten := by
  induction l with
  | nil => simp [addPort]
  | cons kv rest ih =>
      obtain ⟨k, ps⟩ := kv
      by_cases hk : k = owner
      · subst hk
        simp [addPort]
      · simp [addPort, hk, ih]
        tauto

/-- A successful lookup exhibits the corresponding ownership entry. -/
theorem lookup_mem (l : List (String × List Nat)) (o : String) (ps : List Nat)
    (h : l.lookup o = some ps) : (o, ps) ∈ l := by
  induction l with
  | nil => simp [List.lookup] at h
  | cons kv rest ih =>
      obtain ⟨k, qs⟩ := kv
      simp only [List.lookup] at h
      cases hok : (o == k) with
      | true =>
          rw [hok] at h
          have h2 : qs = ps := Option.some.inj h
          have hk : o = k := by simpa using hok
          subst h2
          subst hk
          exact List.mem_cons_self _ _
      | false =>
          rw [hok] at h
          exact List.mem_cons_of_mem _ (ih h)

/-- Any port in some owner's set is among the held ports. -/
theorem mem_held_of_portsOf (s : PortState) (o : String) (x : Nat)
    (hx : x ∈ portsOf s o) : x ∈ heldPorts s := by
  unfold portsOf at hx
  cases h : s.owned.lookup o with
  | none => rw [h] at hx; simp at hx
  | some ps =>
      rw [h] at hx
      exact mem_flatten_snd.mpr ⟨(o, ps), lookup_mem _ _ _ h, hx⟩

/-- After a release, the released owner holds nothing. -/
theorem lookup_removeOwner_self (l : List (String × List Nat))
    (owner : String) :
    (removeOwner l owner).lookup owner = none := by
  induction l with
  | nil => rfl
  | cons kv rest ih =>
      obtain ⟨k, ps⟩ := kv
      by_cases hk : k = owner
      · simp [removeOwner, hk, ih]
      · have hb : (owner == k) = false := beq_eq_false_iff_ne.mpr fun hh => hk hh.symm
        simp [removeOwner, hk, List.lookup, hb, ih]

/-- A release leaves every other owner's set untouched. -/
theorem lookup_removeOwner_ne (l : List (String × List Nat))
    (owner o' : String) (h : o' ≠ owner) :
    (removeOwner l owner).lookup o' = l.lookup o' := by
  induction l with
  | nil => rfl
  | cons kv rest ih =>
      obtain ⟨k, ps⟩ := kv
      by_cases hk : k = owner
      · subst hk
        have hb : (o' == k) = false := beq_eq_false_iff_ne.mpr h
        simp [removeOwner, List.lookup, hb, ih]
      · simp [removeOwner, hk, List.lookup, ih]

/-- A release only removes entries; it never invents ownership. -/
theorem mem_removeOwner (l : List (String × List Nat)) (owner : String)
    (kv : String × List Nat) (h : kv ∈ removeOwner l owner) : kv ∈ l := by
  induction l with
  | nil => simp [removeOwner] at h
  | cons kv0 rest ih =>
      obtain ⟨k, ps⟩ := kv0
      by_cases hk : k = owner
      · rw [removeOwner, if_pos hk] at h
        exact List.mem_cons_of_mem _ (ih h)
      · rw [removeOwner, if_neg hk] at h
        rcases List.mem_cons.mp h with rfl | h2
        · exact List.mem_cons_self _ _
        · exact List.mem_cons_of_mem _ (ih h2)

/-- When the cursor is free, `acquire` returns the cursor, bumps it and
records the port. -/
theorem acquirePort_eq (s : PortState) (owner : String)
    (h : s.cursor ∉ heldPorts s) :
    acquirePort s owner =
      (s.cursor, ⟨s.cursor + 1, addPort s.owned owner s.cursor⟩) := by
  unfold acquirePort
  simp [probeFree, h]

/-- Ports of the acquiring owner after an acquisition. -/
theorem portsOf_addPort_self (s : PortState) (owner : String) (p c : Nat) :
    portsOf ⟨c, addPort s.owned owner p⟩ owner = p :: portsOf s owner := by
  unfold portsOf
  rw [lookup_addPort_self]
  rfl

/-- Ports of the other owners after an acquisition. -/
theorem portsOf_addPort_ne (s : PortState) (owner o' : String) (p c : Nat)
    (h : o' ≠ owner) :
    portsOf ⟨c, addPort s.owned owner p⟩ o' = portsOf s o' := by
  unfold portsOf
  rw [lookup_addPort_ne _ _ _ _ h]

/-- The initial allocator state satisfies the invariant. -/
theorem portInv_init (start : Nat) : PortInv (initPorts start) := by
  constructor
  · intro x hx
    simp [heldPorts, initPorts] at hx
  · intro o1 o2 hne x hx1
    simp [portsOf, initPorts, List.lookup] at hx1

/-- An acquisition preserves the allocator invariant. -/
theorem portInv_acquire (s : PortState) (owner : String) (h : PortInv s) :
    PortInv (acquirePort s owner).2 := by
  have hcur : s.cursor ∉ heldPorts s := fun hmem => lt_irrefl _ (h.1 _ hmem)
  rw [acquirePort_eq s owner hcur]
  constructor
  · intro x hx
    have hx' : x = s.cursor ∨ x ∈ heldPorts s := by
      unfold heldPorts at hx
      exact (mem_held_addPort s.owned owner s.cursor x).mp hx
    show x < s.cursor + 1
    rcases hx' with rfl | hmem
    · exact Nat.lt_succ_self _
    · exact Nat.lt_succ_of_lt (h.1 _ hmem)
  · intro o1 o2 hne x hx1 hx2
    by_cases h1 : o1 = owner
    · subst h1
      rw [portsOf_addPort_self] at hx1
      rw [portsOf_addPort_ne _ _ _ _ _ (Ne.symm hne)] at hx2
      rcases List.mem_cons.mp hx1 with hxe | hx1'
      · exact hcur (hxe ▸ mem_held_of_portsOf s o2 x hx2)
      · exact h.2 o1 o2 hne x hx1' hx2
    · by_cases h2 : o2 = owner
      · subst h2
        rw [portsOf_addPort_ne _ _ _ _ _ h1] at hx1
        rw [portsOf_addPort_self] at hx2
        rcases List.mem_cons.mp hx2 with hxe | hx2'
        · exact hcur (hxe ▸ mem_held_of_portsOf s o1 x hx1)
        · exact h.2 o1 o2 hne x hx1 hx2'
      · rw [portsOf_addPort_ne _ _ _ _ _ h1] at hx1
        rw [portsOf_addPort_ne _ _ _ _ _ h2] at hx2
        exact h.2 o1 o2 hne x hx1 hx2

/-- A release preserves the allocator invariant. -/
theorem portInv_release (s : PortState) (owner : String) (h : PortInv s) :
    PortInv (releasePorts s owner) := by
  constructor
  · intro x hx
    have hx' : x ∈ heldPorts s := by
      obtain ⟨kv, hkv, hxk⟩ := mem_flatten_snd.mp (by
        simpa [heldPorts, releasePorts] using hx)
      exact mem_flatten_snd.mpr ⟨kv, mem_removeOwner _ _ _ hkv, hxk⟩
    exact h.1 x hx'
  · intro o1 o2 hne x hx1 hx2
    by_cases h1 : o1 = owner
    · subst h1
      simp [portsOf, releasePorts, lookup_removeOwner_self] at hx1
    · by_cases h2 : o2 = owner
      · subst h2
        simp [portsOf, releasePorts, lookup_removeOwner_self] at hx2
      · have e1 : portsOf (releasePorts s owner) o1 = portsOf s o1 := by
          simp [portsOf, releasePorts, lookup_removeOwner_ne _ _ _ h1]
        have e2 : portsOf (releasePorts s owner) o2 = portsOf s o2 := by
          simp [portsOf, releasePorts, lookup_removeOwner_ne _ _ _ h2]
        rw [e1] at hx1
        rw [e2] at hx2
        exact h.2 o1 o2 hne x hx1 hx2

/-- Every reachable allocator state satisfies the invariant. -/
theorem portInv_reachable (start : Nat) (s : PortState)
    (h : PortReachable start s) : PortInv s := by
  induction h with
  | refl => exact portInv_init start
  | tail hr step ih =>
      cases step with
      | acquire owner => exact portInv_acquire _ owner ih
      | release owner => exact portInv_release _ owner ih

/-- The two-acquisition fixture state is reachable. -/
theorem paS2_reachable : PortReachable 5000 paS2 :=
  Relation.ReflTransGen.tail
    (Relation.ReflTransGen.tail Relation.ReflTransGen.refl
      (PortStep.acquire (initPorts 5000) "bark"))
    (PortStep.acquire paS1 "coqui")

/-- C4: port-allocation invariant — in every reachable allocator
state the port sets of distinct owners are disjoint (a host port is
held by at most one plugin), and `acquire` never returns a port held
by any current owner. -/
theorem C4_port_invariant (start : Nat) (s : PortState)
    (h : PortReachable start s) :
    (∀ o1 o2, o1 ≠ o2 → ∀ x ∈ portsOf s o1, x ∉ portsOf s o2) ∧
    (∀ owner, (acquirePort s owner).1 ∉ heldPorts s) := by
  have hi := portInv_reachable start s h
  refine ⟨hi.2, fun owner => ?_⟩
  have hcur : s.cursor ∉ heldPorts s := fun hmem => lt_irrefl _ (hi.1 _ hmem)
  rw [show (acquirePort s owner).1 = s.cursor from by
    rw [acquirePort_eq s owner hcur]]
  exact hcur

/-- Witness for C4 at the concrete reachable state after `bark` and
`coqui` each acquired one port from start 5000. -/
theorem C4_port_invariant_witness :
    5000 ∈ portsOf paS2 "bark" ∧ 5001 ∈ portsOf paS2 "coqui" ∧
    5000 ∉ portsOf paS2 "coqui" ∧
    (acquirePort paS2 "anyone").1 ∉ heldPorts paS2 :=
  ⟨by decide, by decide,
   (C4_port_invariant 5000 paS2 paS2_reachable).1 "bark" "coqui"
     (by decide) 5000 (by decide),
   (C4_port_invariant 5000 paS2 paS2_reachable).2 "anyone"⟩

/-- C9: the health probe is a total function — a raised
network/connection error yields `unhealthy` carrying the exception text
as diagnostic, a non-200 upstream answer yields `unhealthy` with a
diagnostic, a 200 yields `healthy`; the inference unit's health
response carries accelerator identity and memory fields exactly when
the device is `cuda`, and for a CPU device those fields are absent,
never fabricated. -/
theorem C9_health_probe (msg : String) (code : Nat) (facts : GpuFacts)
    (device : String) :
    forwardHealthCheck (.raised msg) = ⟨"unhealthy", some msg⟩ ∧
    (code ≠ 200 → forwardHealthCheck (.response code) =
      ⟨"unhealthy", some "TTS service not responding"⟩) ∧
    forwardHealthCheck (.response 200) = ⟨"healthy", none⟩ ∧
    ttsHealthCheck "cuda" facts = ⟨"healthy", "cuda", some facts⟩ ∧
    (device ≠ "cuda" → (ttsHealthCheck device facts).gpu = none ∧
      (ttsHealthCheck device facts).status = "healthy") :=
  ⟨rfl, fun hc => by simp [forwardHealthCheck, hc], rfl,
   by simp [ttsHealthCheck],
   fun hd => by simp [ttsHealthCheck, hd]⟩

/-- Witness for C9: a concrete connection failure, a concrete 503, and
a CPU-device health response without accelerator fields. -/
theorem C9_health_probe_witness :
    forwardHealthCheck (.raised "connection refused") =
      ⟨"unhealthy", some "connection refused"⟩ ∧
    forwardHealthCheck (.response 503) =
      ⟨"unhealthy", some "TTS service not responding"⟩ ∧
    (ttsHealthCheck "cpu" ⟨"none", 0, 0, "none"⟩).gpu = none :=
  ⟨(C9_health_probe "connection refused" 503 ⟨"none", 0, 0, "none"⟩ "cpu").1,
   (C9_health_probe "connection refused" 503 ⟨"none", 0, 0, "none"⟩ "cpu").2.1
     (by decide),
   ((C9_health_probe "connection refused" 503 ⟨"none", 0, 0, "none"⟩
     "cpu").2.2.2.2 (by decide)).1⟩

end TTSC
